import Mathlib

/-!
# Verification of the pydavis protocol codec

Shallow embedding of the pydavis sources (`daviscommands.py`, `davismethods.py`)
and proofs about the claims of the specification.

Conventions of the embedding:
* Byte buffers (`bytearray`) are `List Nat`, one entry per byte (each < 256 at use sites).
* 16-bit wraparound (numpy `uint16`) is explicit `% 65536`.
* Fallible Python code returns `Except PyErr`; the `PyErr` constructors mirror the
  exception classes the interpreter would raise (`NameError`, `AssertionError`,
  `struct.error`, `ValueError`).
* Python floats appear only as simple decimal scalings; they are modelled as exact
  rationals (`ℚ`).
-/

namespace Pydavis

/-- Python exception outcomes relevant to the embedded code. -/
inductive PyErr where
  /-- `NameError`: an undefined name was referenced; the payload is the name. -/
  | nameError (n : String)
  /-- `AssertionError` raised by a bare `assert` (it carries no payload). -/
  | assertionError
  /-- `struct.error` raised by `struct.unpack_from` on a too-short buffer. -/
  | structError
  /-- `ValueError`, e.g. from `datetime.date` / `datetime.time` range checks. -/
  | valueError
  deriving DecidableEq, Repr

/-! ## Checksum engine (`CRC` in `daviscommands.py` / `davismethods.py`) -/

/-- The 256-entry CRC-16/CCITT table, transcribed entry for entry from
`CRC.crc_table` in the source. -/
def crc_table : List Nat := [
     0x0,  0x1021,  0x2042,  0x3063,  0x4084,  0x50a5,  0x60c6,  0x70e7,
  0x8108,  0x9129,  0xa14a,  0xb16b,  0xc18c,  0xd1ad,  0xe1ce,  0xf1ef,
  0x1231,   0x210,  0x3273,  0x2252,  0x52b5,  0x4294,  0x72f7,  0x62d6,
  0x9339,  0x8318,  0xb37b,  0xa35a,  0xd3bd,  0xc39c,  0xf3ff,  0xe3de,
  0x2462,  0x3443,   0x420,  0x1401,  0x64e6,  0x74c7,  0x44a4,  0x5485,
  0xa56a,  0xb54b,  0x8528,  0x9509,  0xe5ee,  0xf5cf,  0xc5ac,  0xd58d,
  0x3653,  0x2672,  0x1611,   0x630,  0x76d7,  0x66f6,  0x5695,  0x46b4,
  0xb75b,  0xa77a,  0x9719,  0x8738,  0xf7df,  0xe7fe,  0xd79d,  0xc7bc,
  0x48c4,  0x58e5,  0x6886,  0x78a7,   0x840,  0x1861,  0x2802,  0x3823,
  0xc9cc,  0xd9ed,  0xe98e,  0xf9af,  0x8948,  0x9969,  0xa90a,  0xb92b,
  0x5af5,  0x4ad4,  0x7ab7,  0x6a96,  0x1a71,   0xa50,  0x3a33,  0x2a12,
  0xdbfd,  0xcbdc,  0xfbbf,  0xeb9e,  0x9b79,  0x8b58,  0xbb3b,  0xab1a,
  0x6ca6,  0x7c87,  0x4ce4,  0x5cc5,  0x2c22,  0x3c03,   0xc60,  0x1c41,
  0xedae,  0xfd8f,  0xcdec,  0xddcd,  0xad2a,  0xbd0b,  0x8d68,  0x9d49,
  0x7e97,  0x6eb6,  0x5ed5,  0x4ef4,  0x3e13,  0x2e32,  0x1e51,   0xe70,
  0xff9f,  0xefbe,  0xdfdd,  0xcffc,  0xbf1b,  0xaf3a,  0x9f59,  0x8f78,
  0x9188,  0x81a9,  0xb1ca,  0xa1eb,  0xd10c,  0xc12d,  0xf14e,  0xe16f,
  0x1080,    0xa1,  0x30c2,  0x20e3,  0x5004,  0x4025,  0x7046,  0x6067,
  0x83b9,  0x9398,  0xa3fb,  0xb3da,  0xc33d,  0xd31c,  0xe37f,  0xf35e,
   0x2b1,  0x1290,  0x22f3,  0x32d2,  0x4235,  0x5214,  0x6277,  0x7256,
  0xb5ea,  0xa5cb,  0x95a8,  0x8589,  0xf56e,  0xe54f,  0xd52c,  0xc50d,
  0x34e2,  0x24c3,  0x14a0,   0x481,  0x7466,  0x6447,  0x5424,  0x4405,
  0xa7db,  0xb7fa,  0x8799,  0x97b8,  0xe75f,  0xf77e,  0xc71d,  0xd73c,
  0x26d3,  0x36f2,   0x691,  0x16b0,  0x6657,  0x7676,  0x4615,  0x5634,
  0xd94c,  0xc96d,  0xf90e,  0xe92f,  0x99c8,  0x89e9,  0xb98a,  0xa9ab,
  0x5844,  0x4865,  0x7806,  0x6827,  0x18c0,   0x8e1,  0x3882,  0x28a3,
  0xcb7d,  0xdb5c,  0xeb3f,  0xfb1e,  0x8bf9,  0x9bd8,  0xabbb,  0xbb9a,
  0x4a75,  0x5a54,  0x6a37,  0x7a16,   0xaf1,  0x1ad0,  0x2ab3,  0x3a92,
  0xfd2e,  0xed0f,  0xdd6c,  0xcd4d,  0xbdaa,  0xad8b,  0x9de8,  0x8dc9,
  0x7c26,  0x6c07,  0x5c64,  0x4c45,  0x3ca2,  0x2c83,  0x1ce0,   0xcc1,
  0xef1f,  0xff3e,  0xcf5d,  0xdf7c,  0xaf9b,  0xbfba,  0x8fd9,  0x9ff8,
  0x6e17,  0x7e36,  0x4e55,  0x5e74,  0x2e93,  0x3eb2,   0xed1,  0x1ef0 ]

/-- `CRC.crc_init = 0x0000`. -/
def crc_init : Nat := 0

/-- One iteration of the loop body in `CRC.__call__`:
`AX = CRC.crc_table[(AX >> 8) ^ b] ^ (AX << 8)`, with the numpy `uint16`
arithmetic made explicit as `% 65536`. -/
def crc_step (acc b : Nat) : Nat :=
  (crc_table.getD ((acc >>> 8) ^^^ b) 0) ^^^ ((acc <<< 8) % 65536)

/-- The accumulator loop of `CRC.__call__` over a byte buffer. -/
def crc_fold (acc : Nat) (data : List Nat) : Nat :=
  data.foldl crc_step acc

/-- `CRC.__call__(data)` as written in the source: it runs the accumulator
loop into the local `AX`, then executes `return crc` where `crc` is an
undefined name, so every call ends in `NameError: name 'crc' is not defined`
instead of returning the accumulator. -/
def CRC_call (data : List Nat) : Except PyErr Nat :=
  let _AX := crc_fold crc_init data
  .error (.nameError "crc")

/-- `CRC.__bool__(checksum)` as written in the source: its body
`crc_table[(checksum >> 8) ^ b] ^ (checksum << 8) == 0` references `crc_table`
(a class attribute, not in scope inside the method body) and `b` (never
defined), so evaluation raises `NameError` before anything is computed. -/
def CRC_bool (_checksum : Nat) : Except PyErr Bool :=
  .error (.nameError "crc_table")

/-! Facts about the CRC accumulator algorithm. -/

set_option maxRecDepth 4096 in
theorem crc_table_entry_lt (i d : Nat) (hd : d < 65536) :
    crc_table.getD i d < 65536 := by
  have hall : ∀ x ∈ crc_table, x < 65536 := by decide
  rcases Nat.lt_or_ge i crc_table.length with h | h
  · rw [List.getD_eq_getElem crc_table d h]
    exact hall _ (List.getElem_mem h)
  · rw [List.getD_eq_default crc_table d h]
    exact hd

theorem crc_step_lt (acc b : Nat) : crc_step acc b < 65536 := by
  unfold crc_step
  have h65536 : (65536 : Nat) = 2 ^ 16 := by norm_num
  rw [h65536]
  have h1 : crc_table.getD ((acc >>> 8) ^^^ b) 0 < 2 ^ 16 := by
    have := crc_table_entry_lt ((acc >>> 8) ^^^ b) 0 (by norm_num)
    omega
  have h2 : (acc <<< 8) % 2 ^ 16 < 2 ^ 16 := Nat.mod_lt _ (by norm_num)
  exact Nat.xor_lt_two_pow h1 h2

theorem crc_fold_lt (data : List Nat) (acc : Nat) (h : acc < 65536) :
    crc_fold acc data < 65536 := by
  induction data generalizing acc with
  | nil => exact h
  | cons b rest ih => exact ih (crc_step acc b) (crc_step_lt acc b)

/-- Feeding the high byte of the accumulator back into the step zeroes the
table index, so the step reduces to the 16-bit left shift. -/
theorem crc_step_high_byte (c : Nat) : crc_step c (c >>> 8) = c % 256 * 256 := by
  unfold crc_step
  rw [Nat.xor_self]
  have h0 : crc_table.getD 0 0 = 0 := by decide
  rw [h0, Nat.zero_xor, Nat.shiftLeft_eq]
  have h8 : (2 : Nat) ^ 8 = 256 := by norm_num
  rw [h8]
  omega

/-- Then feeding the low byte zeroes the accumulator entirely. -/
theorem crc_step_low_byte (c : Nat) : crc_step (c % 256 * 256) (c % 256) = 0 := by
  unfold crc_step
  have hshr : (c % 256 * 256) >>> 8 = c % 256 := by
    rw [Nat.shiftRight_eq_div_pow]
    norm_num
  rw [hshr, Nat.xor_self]
  have h0 : crc_table.getD 0 0 = 0 := by decide
  rw [h0, Nat.zero_xor, Nat.shiftLeft_eq]
  have h8 : (2 : Nat) ^ 8 = 256 := by norm_num
  rw [h8]
  omega

/-- C1: the claim states that `compute(buffer)` returns the accumulator
obtained by folding `acc = table[(acc >> 8) ^ b] ^ (acc << 8)` (mod 2^16)
over the buffer.  The loop in `CRC.__call__` indeed computes exactly that
accumulator (embedded here as `crc_fold`), but the function then executes
`return crc`, where `crc` is an undefined name: every call raises
`NameError` instead of returning the accumulator, so `compute` never
returns the claimed value. -/
theorem crc_call_raises_nameError :
    ∀ data : List Nat, CRC_call data = .error (.nameError "crc") :=
  fun _ => rfl

/-- C2: the claimed algebraic invariant does hold for the accumulator
algorithm: the fold is always a 16-bit value, and folding over a buffer
followed by that value's two bytes in big-endian order yields 0.  But the
verification half of the claim fails on the code: `CRC.__bool__` references
the undefined names `crc_table` and `b`, so it raises `NameError` for every
input instead of deciding whether the checksum over the buffer is zero. -/
theorem crc_append_checksum_yields_zero :
    ∀ data : List Nat,
      crc_fold crc_init data < 65536 ∧
      crc_fold crc_init
        (data ++ [crc_fold crc_init data >>> 8, crc_fold crc_init data % 256]) = 0 ∧
      CRC_bool (crc_fold crc_init data) = .error (.nameError "crc_table") := by
  intro data
  refine ⟨crc_fold_lt data crc_init (by decide), ?_, rfl⟩
  generalize hc : crc_fold crc_init data = c
  unfold crc_fold at hc ⊢
  rw [List.foldl_append, hc]
  show crc_step (crc_step c (c >>> 8)) (c % 256) = 0
  rw [crc_step_high_byte]
  exact crc_step_low_byte c

/-! ## LOOP2 record decoder (`LoopRecord` in `davismethods.py`)

`struct.unpack_from(LOOP2_RECORD_FORMAT, data)` yields a 44-tuple.  The
format string is little-endian with no padding; the tuple entries, their
formats and their byte offsets are transcribed below.  Entries from `s`/`c`
formats are Python `bytes`; the rest are ints. -/

/-- The 44-entry tuple produced by `struct.unpack_from` on a LOOP2 buffer,
with one named field per tuple index (fields named after
`LOOP2_RECORD_ATTRIBUTE_MAP`; reserved entries after their index). -/
structure Unpacked where
  /-- index 0, `3s` at offset 0 (Python `bytes`) -/
  tag : List Nat
  /-- index 1, `b` at offset 3 -/
  barometric_trend : Int
  /-- index 2, `B` at offset 4 -/
  record_type : Int
  /-- index 3, `H` at offset 5 -/
  unused3 : Int
  /-- index 4, `H` at offset 7 -/
  barometric_pressure : Int
  /-- index 5, `h` at offset 9 -/
  temperature_inside : Int
  /-- index 6, `B` at offset 11 -/
  humidity_inside : Int
  /-- index 7, `h` at offset 12 -/
  temperature_outside : Int
  /-- index 8, `B` at offset 14 -/
  wind_speed : Int
  /-- index 9, `B` at offset 15 -/
  unused9 : Int
  /-- index 10, `H` at offset 16 -/
  wind_direction_degrees : Int
  /-- index 11, `H` at offset 18 -/
  wind_speed_10_minute_average : Int
  /-- index 12, `H` at offset 20 -/
  wind_speed_2_minute_average : Int
  /-- index 13, `H` at offset 22 -/
  wind_speed_10_minute_gust : Int
  /-- index 14, `H` at offset 24 -/
  wind_speed_10_minute_gust_direction_degrees : Int
  /-- index 15, `H` at offset 26 -/
  unused15 : Int
  /-- index 16, `H` at offset 28 -/
  unused16 : Int
  /-- index 17, `h` at offset 30 -/
  dew_point : Int
  /-- index 18, `B` at offset 32 -/
  unused18 : Int
  /-- index 19, `B` at offset 33 -/
  humidity_outside : Int
  /-- index 20, `B` at offset 34 -/
  unused20 : Int
  /-- index 21, `h` at offset 35 -/
  heat_index : Int
  /-- index 22, `h` at offset 37 -/
  wind_chill : Int
  /-- index 23, `h` at offset 39 -/
  thsw_index : Int
  /-- index 24, `H` at offset 41 -/
  rain_rate_clicks : Int
  /-- index 25, `B` at offset 43 -/
  uv_index : Int
  /-- index 26, `H` at offset 44 -/
  solar_radiation : Int
  /-- index 27, `H` at offset 46 (then `2x` at offset 48) -/
  rain_clicks_this_storm : Int
  /-- index 28, `H` at offset 50 -/
  rain_clicks_today : Int
  /-- index 29, `H` at offset 52 -/
  rain_clicks_15_minutes : Int
  /-- index 30, `H` at offset 54 -/
  rain_clicks_1_hour : Int
  /-- index 31, `H` at offset 56 -/
  evapotranspiration : Int
  /-- index 32, `H` at offset 58 (then `11x` at offset 60) -/
  rain_clicks_24_hours : Int
  /-- index 33, `B` at offset 71 (then `x` at 72 and `6x` at 73) -/
  unused33 : Int
  /-- index 34, `B` at offset 79 (then `3x` at offset 80) -/
  minute_in_hour : Int
  /-- index 35, `H` at offset 83 -/
  unused35 : Int
  /-- index 36, `H` at offset 85 -/
  unused36 : Int
  /-- index 37, `H` at offset 87 -/
  unused37 : Int
  /-- index 38, `H` at offset 89 -/
  unused38 : Int
  /-- index 39, `H` at offset 91 -/
  unused39 : Int
  /-- index 40, `H` at offset 93 -/
  unused40 : Int
  /-- index 41, `c` at offset 95 (Python `bytes` of length 1) -/
  lf : List Nat
  /-- index 42, `c` at offset 96 (Python `bytes` of length 1) -/
  cr : List Nat
  /-- index 43, `H` at offset 97 -/
  crc : Int

/-- Byte `i` of a buffer (callers stay in bounds under the length guard). -/
def byteAt (d : List Nat) (i : Nat) : Nat := d.getD i 0

/-- Little-endian unsigned 16-bit field at offset `i` (format `H`). -/
def u16 (d : List Nat) (i : Nat) : Int := (byteAt d i : Int) + 256 * (byteAt d (i + 1) : Int)

/-- Little-endian signed 16-bit field at offset `i` (format `h`). -/
def s16 (d : List Nat) (i : Nat) : Int :=
  if u16 d i < 32768 then u16 d i else u16 d i - 65536

/-- Unsigned byte field at offset `i` (format `B`). -/
def u8 (d : List Nat) (i : Nat) : Int := (byteAt d i : Int)

/-- Signed byte field at offset `i` (format `b`). -/
def s8 (d : List Nat) (i : Nat) : Int :=
  if byteAt d i < 128 then (byteAt d i : Int) else (byteAt d i : Int) - 256

/-- `struct.unpack_from(cls.LOOP2_RECORD_FORMAT, data)`: raises
`struct.error` when the buffer holds fewer bytes than the 99 the format
needs, and otherwise reads the fields from the first 99 bytes, ignoring any
extra bytes (`unpack_from`, unlike `unpack`, does not require an exact
length). -/
def unpack_from (d : List Nat) : Except PyErr Unpacked :=
  if d.length < 99 then .error .structError
  else .ok {
    tag := [byteAt d 0, byteAt d 1, byteAt d 2]
    barometric_trend := s8 d 3
    record_type := u8 d 4
    unused3 := u16 d 5
    barometric_pressure := u16 d 7
    temperature_inside := s16 d 9
    humidity_inside := u8 d 11
    temperature_outside := s16 d 12
    wind_speed := u8 d 14
    unused9 := u8 d 15
    wind_direction_degrees := u16 d 16
    wind_speed_10_minute_average := u16 d 18
    wind_speed_2_minute_average := u16 d 20
    wind_speed_10_minute_gust := u16 d 22
    wind_speed_10_minute_gust_direction_degrees := u16 d 24
    unused15 := u16 d 26
    unused16 := u16 d 28
    dew_point := s16 d 30
    unused18 := u8 d 32
    humidity_outside := u8 d 33
    unused20 := u8 d 34
    heat_index := s16 d 35
    wind_chill := s16 d 37
    thsw_index := s16 d 39
    rain_rate_clicks := u16 d 41
    uv_index := u8 d 43
    solar_radiation := u16 d 44
    rain_clicks_this_storm := u16 d 46
    rain_clicks_today := u16 d 50
    rain_clicks_15_minutes := u16 d 52
    rain_clicks_1_hour := u16 d 54
    evapotranspiration := u16 d 56
    rain_clicks_24_hours := u16 d 58
    unused33 := u8 d 71
    minute_in_hour := u8 d 79
    unused35 := u16 d 83
    unused36 := u16 d 85
    unused37 := u16 d 87
    unused38 := u16 d 89
    unused39 := u16 d 91
    unused40 := u16 d 93
    lf := [byteAt d 95]
    cr := [byteAt d 96]
    crc := u16 d 97 }

/-! ### Fixed-field verification

`_get_loop_2_arguments` iterates `LOOP2_RECORD_VERIFICATION_MAP_WLK` (the
source calls `six.iteritems`; `six` is the well-known py2/py3 compat shim
whose `iteritems(d)` is `iter(d.items())`, embedded as plain dict
iteration) and runs `assert unpacked[k] == v` for each entry.  Every
`assert` raises the same bare `AssertionError`, so the checks are embedded
as one conjunction. -/

/-- Python 3 equality between a `bytes` value and a `str` value: always
`False`, whatever the contents (`b'LOO' == 'LOO'` is `False`).  The map
entries for indices 0, 41 and 42 ('LOO', '\n', '\r') are `str` constants
while the unpacked values are `bytes`, so those comparisons can never
succeed on Python 3. -/
def pyEqBytesStr (_b : List Nat) (_s : String) : Bool := false

/-- The `assert unpacked[k] == v` loop over
`LOOP2_RECORD_VERIFICATION_MAP_WLK`, in dict insertion order. -/
def verifyFixed (u : Unpacked) : Except PyErr Unit :=
  if pyEqBytesStr u.tag "LOO"
      && u.record_type == 1
      && u.unused3 == 0x7FFF
      && u.unused9 == 0xFF
      && u.unused15 == 0x7FFF
      && u.unused16 == 0x7FFF
      && u.unused18 == 0xFF
      && u.unused20 == 0xFF
      && u.unused33 == 0xFF
      && u.unused35 == 0x7FFF
      && u.unused36 == 0x7FFF
      && u.unused37 == 0x7FFF
      && u.unused38 == 0x7FFF
      && u.unused39 == 0x7FFF
      && u.unused40 == 0x7FFF
      && pyEqBytesStr u.lf "\n"
      && pyEqBytesStr u.cr "\r"
  then .ok () else .error .assertionError

/-! ### Per-field conversion and sentinel handling

The extraction loop does, for each non-reserved index `i` below 35:
`arguments[k] = None` if the raw value equals the map's sentinel, else
`arguments[k] = conv(v)` where `conv` is the map's conversion function. -/

/-- Builtin `int` applied to an unpacked int: the identity. -/
def conv_int (v : Int) : Except PyErr Int := .ok v

/-- Builtin `float` applied to an unpacked int (floats are modelled as
exact rationals). -/
def conv_float (v : Int) : Except PyErr ℚ := .ok (v : ℚ)

/-- `DavisConversions.TENTHS` is the class-body lambda `lambda x: x * _TENTHS`.
In Python 3 a class body is not a lexical scope for functions defined inside
it, so when the lambda is called, `_TENTHS` is looked up in the module
globals, where it does not exist: every call raises
`NameError: name '_TENTHS' is not defined`. -/
def conv_TENTHS (_v : Int) : Except PyErr ℚ := .error (.nameError "_TENTHS")

/-- `DavisConversions.THOUSANDTHS` has the same class-body-lambda scoping
flaw as `TENTHS`: every call raises `NameError`. -/
def conv_THOUSANDTHS (_v : Int) : Except PyErr ℚ := .error (.nameError "_THOUSANDTHS")

/-- One step of the extraction loop: Python's
`if v == sentinel: arguments[k] = None else: arguments[k] = conv(v)`;
a sentinel of `none` models the entries whose third component is Python
`None` (an int never equals `None`, so conversion always runs). -/
def applySentinel {α : Type} (conv : Int → Except PyErr α) (sentinel : Option Int)
    (v : Int) : Except PyErr (Option α) :=
  if some v = sentinel then .ok none else (conv v).map some

/-- The arguments dict as populated by the extraction loop of
`_get_loop_2_arguments` (string keys become fields). -/
structure Args where
  crc_match : Bool
  record_type : Int
  barometric_trend : Option Int
  barometric_pressure : Option ℚ
  temperature_inside : Option ℚ
  humidity_inside : Option Int
  temperature_outside : Option ℚ
  wind_speed : Option ℚ
  wind_direction_degrees : Option Int
  wind_speed_10_minute_average : Option ℚ
  wind_speed_2_minute_average : Option ℚ
  wind_speed_10_minute_gust : Option ℚ
  wind_speed_10_minute_gust_direction_degrees : Option Int
  dew_point : Option ℚ
  humidity_outside : Option Int
  heat_index : Option Int
  wind_chill : Option Int
  thsw_index : Option Int
  rain_rate_clicks : Option Int
  uv_index : Option ℚ
  solar_radiation : Option Int
  rain_clicks_this_storm : Option Int
  rain_clicks_today : Option Int
  rain_clicks_15_minutes : Option Int
  rain_clicks_1_hour : Option Int
  evapotranspiration : Option ℚ
  rain_clicks_24_hours : Option Int
  minute_in_hour : Option Int

/-- The extraction loop of `_get_loop_2_arguments`, one `applySentinel` per
non-reserved index of `LOOP2_RECORD_ATTRIBUTE_MAP` in index order, with the
conversion function and sentinel of that map entry.  `crcm` is the
`crc_match` value seeded into the dict before the loop. -/
def extractArguments (crcm : Bool) (u : Unpacked) : Except PyErr Args := do
  let barometric_trend ← applySentinel conv_int (some 80) u.barometric_trend
  let barometric_pressure ← applySentinel conv_THOUSANDTHS (some 0) u.barometric_pressure
  let temperature_inside ← applySentinel conv_TENTHS (some 32767) u.temperature_inside
  let humidity_inside ← applySentinel conv_int (some 255) u.humidity_inside
  let temperature_outside ← applySentinel conv_TENTHS (some 32767) u.temperature_outside
  let wind_speed ← applySentinel conv_float (some 255) u.wind_speed
  let wind_direction_degrees ← applySentinel conv_int (some 0) u.wind_direction_degrees
  let wind_speed_10_minute_average ← applySentinel conv_TENTHS (some 0) u.wind_speed_10_minute_average
  let wind_speed_2_minute_average ← applySentinel conv_TENTHS (some 0) u.wind_speed_2_minute_average
  let wind_speed_10_minute_gust ← applySentinel conv_TENTHS (some 0) u.wind_speed_10_minute_gust
  let wind_speed_10_minute_gust_direction_degrees ←
    applySentinel conv_int (some 0) u.wind_speed_10_minute_gust_direction_degrees
  let dew_point ← applySentinel conv_float (some 255) u.dew_point
  let humidity_outside ← applySentinel conv_int (some 255) u.humidity_outside
  let heat_index ← applySentinel conv_int (some 255) u.heat_index
  let wind_chill ← applySentinel conv_int (some 255) u.wind_chill
  let thsw_index ← applySentinel conv_int (some 255) u.thsw_index
  let rain_rate_clicks ← applySentinel conv_int none u.rain_rate_clicks
  let uv_index ← applySentinel conv_TENTHS (some 255) u.uv_index
  let solar_radiation ← applySentinel conv_int (some 32767) u.solar_radiation
  let rain_clicks_this_storm ← applySentinel conv_int none u.rain_clicks_this_storm
  let rain_clicks_today ← applySentinel conv_int none u.rain_clicks_today
  let rain_clicks_15_minutes ← applySentinel conv_int none u.rain_clicks_15_minutes
  let rain_clicks_1_hour ← applySentinel conv_int none u.rain_clicks_1_hour
  let evapotranspiration ← applySentinel conv_THOUSANDTHS (some 0) u.evapotranspiration
  let rain_clicks_24_hours ← applySentinel conv_int none u.rain_clicks_24_hours
  let minute_in_hour ← applySentinel conv_int (some 60) u.minute_in_hour
  .ok { crc_match := crcm, record_type := 2, barometric_trend, barometric_pressure,
        temperature_inside, humidity_inside, temperature_outside, wind_speed,
        wind_direction_degrees, wind_speed_10_minute_average,
        wind_speed_2_minute_average, wind_speed_10_minute_gust,
        wind_speed_10_minute_gust_direction_degrees, dew_point, humidity_outside,
        heat_index, wind_chill, thsw_index, rain_rate_clicks, uv_index,
        solar_radiation, rain_clicks_this_storm, rain_clicks_today,
        rain_clicks_15_minutes, rain_clicks_1_hour, evapotranspiration,
        rain_clicks_24_hours, minute_in_hour }

/-! ### Post-processing (`_post_process_arguments`)

Three names this method calls are adapted from the weatherlink-python
project and are not among the sources: `BarometricTrend`,
`WindDirection.from_degrees` and `RainCollectorTypeSerial`.  They are
modelled from the spec below. -/

/-- Modelled from the spec: `BarometricTrend` (missing from the sources) is
"a closed enumeration of trend codes"; constructing it from an unrecognized
code raises `ValueError`, which `_post_process_arguments` catches and turns
into `None` ("an unrecognized code yields an absent trend").  The codes are
the five barometer-trend codes of the Davis protocol. -/
def barometricTrendCodes : List Int := [-60, -20, 0, 20, 60]

/-- The `try: BarometricTrend(...) except ValueError: None` block, applied
to the dict value (which is `None` when the raw byte equalled the sentinel;
`BarometricTrend(None)` also raises `ValueError` and yields `None`). -/
def trendOf (v : Option Int) : Option Int :=
  match v with
  | some n => if n ∈ barometricTrendCodes then some n else none
  | none => none

/-- Modelled from the spec: `WindDirection.from_degrees` (missing from the
sources) converts a 0-360 degree code to a directional reading; the reading
is identified by its degrees. -/
def WindDirection_from_degrees (n : Int) : Int := n

/-- Modelled from the spec: `RainCollectorTypeSerial.inches_0_01` (missing
from the sources) is the rain-collector variant whose
`clicks_to_inches(clicks)` converts at 0.01 inches per click. -/
def clicks_to_inches (n : Int) : ℚ := (n : ℚ) * (1 / 100)

/-- The final arguments dict after `_post_process_arguments`:
the `barometric_trend` value is replaced by the trend-code result, and the
derived keys of `LOOP_WIND_DIRECTION_SPECIAL` / `LOOP_RAIN_AMOUNT_SPECIAL`
are added. -/
structure Record where
  crc_match : Bool
  record_type : Int
  barometric_trend : Option Int
  barometric_pressure : Option ℚ
  temperature_inside : Option ℚ
  humidity_inside : Option Int
  temperature_outside : Option ℚ
  wind_speed : Option ℚ
  wind_direction_degrees : Option Int
  wind_speed_10_minute_average : Option ℚ
  wind_speed_2_minute_average : Option ℚ
  wind_speed_10_minute_gust : Option ℚ
  wind_speed_10_minute_gust_direction_degrees : Option Int
  dew_point : Option ℚ
  humidity_outside : Option Int
  heat_index : Option Int
  wind_chill : Option Int
  thsw_index : Option Int
  rain_rate_clicks : Option Int
  uv_index : Option ℚ
  solar_radiation : Option Int
  rain_clicks_this_storm : Option Int
  rain_clicks_today : Option Int
  rain_clicks_15_minutes : Option Int
  rain_clicks_1_hour : Option Int
  evapotranspiration : Option ℚ
  rain_clicks_24_hours : Option Int
  minute_in_hour : Option Int
  wind_direction : Option Int
  wind_speed_10_minute_gust_direction : Option Int
  rain_rate : Option ℚ
  rain_amount_this_storm : Option ℚ
  rain_amount_today : Option ℚ
  rain_amount_15_minutes : Option ℚ
  rain_amount_1_hour : Option ℚ
  rain_amount_24_hours : Option ℚ

/-- Python truthiness of the dict values driving the `if arguments[k1]:`
branches: `None` and `0` are falsy, any other int is truthy. -/
def truthy (v : Option Int) : Bool :=
  match v with
  | none => false
  | some n => n != 0

/-- `arguments[k2] = WindDirection.from_degrees(arguments[k1]) if
arguments[k1] else None` for the `LOOP_WIND_DIRECTION_SPECIAL` pairs. -/
def windDirOf (v : Option Int) : Option Int :=
  match v with
  | some n => if n = 0 then none else some (WindDirection_from_degrees n)
  | none => none

/-- `arguments[k2] = rain_collector_type.clicks_to_inches(arguments[k1]) if
arguments[k1] else None` for the `LOOP_RAIN_AMOUNT_SPECIAL` pairs (the
collector type is hard-coded to `inches_0_01` at the top of
`_post_process_arguments`). -/
def rainAmountOf (v : Option Int) : Option ℚ :=
  match v with
  | some n => if n = 0 then none else some (clicks_to_inches n)
  | none => none

/-- `_post_process_arguments`, acting on the extracted dict. -/
def post_process (a : Args) : Record :=
  { crc_match := a.crc_match
    record_type := a.record_type
    barometric_trend := trendOf a.barometric_trend
    barometric_pressure := a.barometric_pressure
    temperature_inside := a.temperature_inside
    humidity_inside := a.humidity_inside
    temperature_outside := a.temperature_outside
    wind_speed := a.wind_speed
    wind_direction_degrees := a.wind_direction_degrees
    wind_speed_10_minute_average := a.wind_speed_10_minute_average
    wind_speed_2_minute_average := a.wind_speed_2_minute_average
    wind_speed_10_minute_gust := a.wind_speed_10_minute_gust
    wind_speed_10_minute_gust_direction_degrees :=
      a.wind_speed_10_minute_gust_direction_degrees
    dew_point := a.dew_point
    humidity_outside := a.humidity_outside
    heat_index := a.heat_index
    wind_chill := a.wind_chill
    thsw_index := a.thsw_index
    rain_rate_clicks := a.rain_rate_clicks
    uv_index := a.uv_index
    solar_radiation := a.solar_radiation
    rain_clicks_this_storm := a.rain_clicks_this_storm
    rain_clicks_today := a.rain_clicks_today
    rain_clicks_15_minutes := a.rain_clicks_15_minutes
    rain_clicks_1_hour := a.rain_clicks_1_hour
    evapotranspiration := a.evapotranspiration
    rain_clicks_24_hours := a.rain_clicks_24_hours
    minute_in_hour := a.minute_in_hour
    wind_direction := windDirOf a.wind_direction_degrees
    wind_speed_10_minute_gust_direction :=
      windDirOf a.wind_speed_10_minute_gust_direction_degrees
    rain_rate := rainAmountOf a.rain_rate_clicks
    rain_amount_this_storm := rainAmountOf a.rain_clicks_this_storm
    rain_amount_today := rainAmountOf a.rain_clicks_today
    rain_amount_15_minutes := rainAmountOf a.rain_clicks_15_minutes
    rain_amount_1_hour := rainAmountOf a.rain_clicks_1_hour
    rain_amount_24_hours := rainAmountOf a.rain_clicks_24_hours }

/-- Modelled from the spec: `calculate_weatherlink_crc` (missing from the
sources) is the Checksum Engine run over the buffer ("run the Checksum
Engine over the full 99 bytes"). -/
def calculate_weatherlink_crc (data : List Nat) : Nat := crc_fold crc_init data

/-- `LoopRecord._get_loop_2_arguments` on a byte buffer: unpack, assert the
fixed fields, seed `crc_match` and `record_type`, run the extraction loop,
post-process. -/
def get_loop_2_arguments (data : List Nat) : Except PyErr Record :=
  match unpack_from data with
  | .error e => .error e
  | .ok u =>
    match verifyFixed u with
    | .error e => .error e
    | .ok _ =>
      match extractArguments (calculate_weatherlink_crc data == 0) u with
      | .error e => .error e
      | .ok a => .ok (post_process a)

/-! ### Lemmas about the decoder -/

theorem ok_bind {α β : Type} (x : α) (f : α → Except PyErr β) :
    (Except.ok x >>= f) = f x := rfl

theorem error_bind {α β : Type} (e : PyErr) (f : α → Except PyErr β) :
    ((Except.error e : Except PyErr α) >>= f) = Except.error e := rfl

theorem if_okerr_bind_ok_iff {α β : Type} {c : Prop} [Decidable c] {x : α} {e : PyErr}
    {f : α → Except PyErr β} {b : β} :
    (((if c then Except.ok x else Except.error e) >>= f) = Except.ok b) ↔
      (c ∧ f x = Except.ok b) := by
  by_cases h : c
  · rw [if_pos h, ok_bind]
    simp [h]
  · rw [if_neg h, error_bind]
    simp [h]

theorem applySentinel_int (s : Option Int) (v : Int) :
    applySentinel conv_int s v = .ok (if some v = s then none else some v) := by
  unfold applySentinel
  split <;> rfl

theorem applySentinel_float (s : Option Int) (v : Int) :
    applySentinel conv_float s v = .ok (if some v = s then none else some (v : ℚ)) := by
  unfold applySentinel
  split <;> rfl

theorem applySentinel_TENTHS (s : Option Int) (v : Int) :
    applySentinel conv_TENTHS s v =
      if some v = s then .ok none else .error (.nameError "_TENTHS") := by
  unfold applySentinel
  split <;> rfl

theorem applySentinel_THOUSANDTHS (s : Option Int) (v : Int) :
    applySentinel conv_THOUSANDTHS s v =
      if some v = s then .ok none else .error (.nameError "_THOUSANDTHS") := by
  unfold applySentinel
  split <;> rfl

/-- The dict the extraction loop produces when it succeeds, as a function of
the unpacked tuple (sentinel comparisons still symbolic; the scaled fields
are `none` because success forces their sentinel branch). -/
def argsOf (crcm : Bool) (u : Unpacked) : Args :=
  { crc_match := crcm
    record_type := 2
    barometric_trend := if u.barometric_trend = 80 then none else some u.barometric_trend
    barometric_pressure := none
    temperature_inside := none
    humidity_inside := if u.humidity_inside = 255 then none else some u.humidity_inside
    temperature_outside := none
    wind_speed := if u.wind_speed = 255 then none else some (u.wind_speed : ℚ)
    wind_direction_degrees :=
      if u.wind_direction_degrees = 0 then none else some u.wind_direction_degrees
    wind_speed_10_minute_average := none
    wind_speed_2_minute_average := none
    wind_speed_10_minute_gust := none
    wind_speed_10_minute_gust_direction_degrees :=
      if u.wind_speed_10_minute_gust_direction_degrees = 0 then none
      else some u.wind_speed_10_minute_gust_direction_degrees
    dew_point := if u.dew_point = 255 then none else some (u.dew_point : ℚ)
    humidity_outside := if u.humidity_outside = 255 then none else some u.humidity_outside
    heat_index := if u.heat_index = 255 then none else some u.heat_index
    wind_chill := if u.wind_chill = 255 then none else some u.wind_chill
    thsw_index := if u.thsw_index = 255 then none else some u.thsw_index
    rain_rate_clicks := some u.rain_rate_clicks
    uv_index := none
    solar_radiation := if u.solar_radiation = 32767 then none else some u.solar_radiation
    rain_clicks_this_storm := some u.rain_clicks_this_storm
    rain_clicks_today := some u.rain_clicks_today
    rain_clicks_15_minutes := some u.rain_clicks_15_minutes
    rain_clicks_1_hour := some u.rain_clicks_1_hour
    evapotranspiration := none
    rain_clicks_24_hours := some u.rain_clicks_24_hours
    minute_in_hour := if u.minute_in_hour = 60 then none else some u.minute_in_hour }

/-- Characterization of a successful extraction: it succeeds exactly when
every field converted through the broken `TENTHS` / `THOUSANDTHS` lambdas
equals its sentinel (so the lambda is never called), and then the dict is
`argsOf`. -/
theorem extract_ok_iff (crcm : Bool) (u : Unpacked) (a : Args) :
    extractArguments crcm u = .ok a ↔
      (u.barometric_pressure = 0 ∧ u.temperature_inside = 32767 ∧
       u.temperature_outside = 32767 ∧ u.wind_speed_10_minute_average = 0 ∧
       u.wind_speed_2_minute_average = 0 ∧ u.wind_speed_10_minute_gust = 0 ∧
       u.uv_index = 255 ∧ u.evapotranspiration = 0 ∧ argsOf crcm u = a) := by
  unfold extractArguments argsOf
  simp only [applySentinel_int, applySentinel_float, applySentinel_TENTHS,
    applySentinel_THOUSANDTHS, ok_bind, if_okerr_bind_ok_iff, Option.some.injEq,
    Except.ok.injEq, and_assoc]
  simp

/-- Every run of the fixed-field checks fails: the first `assert` compares
the `bytes` tag against the `str` constant `'LOO'`, and `bytes == str` is
`False` in Python 3 whatever the bytes are. -/
theorem verifyFixed_fails (u : Unpacked) : verifyFixed u = .error .assertionError := rfl

/-- Consequently the decoder can never return a record. -/
theorem loop2_no_success (data : List Nat) (r : Record) :
    get_loop_2_arguments data ≠ .ok r := by
  unfold get_loop_2_arguments
  cases hu : unpack_from data with
  | error e => simp
  | ok u => simp [verifyFixed_fails]

/-! ### Concrete fixtures -/

/-- A 99-byte LOOP2 frame holding every documented constant: tag `'LOO'`
(bytes 76,79,79 at offset 0), record type 1 at offset 4, fillers `0x7FFF`
(bytes 0xFF,0x7F little-endian) and `0xFF` at their reserved offsets,
terminators `\n` (10) at offset 95 and `\r` (13) at offset 96, plus
plausible readings elsewhere (outside temperature raw 725 at offset 12,
wind direction 90 at offset 16, scaled fields at their sentinels). -/
def validBuf : List Nat :=
  [76, 79, 79,                -- offset 0: 'LOO'
   0,                         -- offset 3: barometer trend
   1,                         -- offset 4: record type 1 (LOOP2)
   0xFF, 0x7F,                -- offset 5: 0x7FFF filler
   0, 0,                      -- offset 7: barometer (raw 0, sentinel)
   0xFF, 0x7F,                -- offset 9: inside temperature 32767 (sentinel)
   50,                        -- offset 11: inside humidity
   0xD5, 0x02,                -- offset 12: outside temperature raw 725
   5,                         -- offset 14: wind speed
   0xFF,                      -- offset 15: 0xFF filler
   90, 0,                     -- offset 16: wind direction 90
   0, 0,                      -- offset 18: 10-min average speed
   0, 0,                      -- offset 20: 2-min average speed
   0, 0,                      -- offset 22: 10-min gust speed
   90, 0,                     -- offset 24: 10-min gust direction 90
   0xFF, 0x7F,                -- offset 26: 0x7FFF filler
   0xFF, 0x7F,                -- offset 28: 0x7FFF filler
   60, 0,                     -- offset 30: dew point
   0xFF,                      -- offset 32: 0xFF filler
   55,                        -- offset 33: outside humidity
   0xFF,                      -- offset 34: 0xFF filler
   80, 0,                     -- offset 35: heat index
   70, 0,                     -- offset 37: wind chill
   75, 0,                     -- offset 39: THSW index
   0, 0,                      -- offset 41: rain rate clicks
   0xFF,                      -- offset 43: UV index 255 (sentinel)
   0x90, 0x01,                -- offset 44: solar radiation 400
   0, 0,                      -- offset 46: storm rain clicks
   0, 0,                      -- offset 48: storm start date (2x)
   0, 0,                      -- offset 50: rain clicks today
   0, 0,                      -- offset 52: rain clicks 15 minutes
   0, 0,                      -- offset 54: rain clicks 1 hour
   0, 0,                      -- offset 56: evapotranspiration (sentinel)
   0, 0,                      -- offset 58: rain clicks 24 hours
   0, 0, 0, 0, 0, 0, 0, 0, 0, 0, 0,  -- offset 60: 11x barometer calibration
   0xFF,                      -- offset 71: 0xFF filler
   0,                         -- offset 72: x undefined
   0, 0, 0, 0, 0, 0,          -- offset 73: 6x console graph
   30,                        -- offset 79: minute in hour
   0, 0, 0,                   -- offset 80: 3x console graph
   0xFF, 0x7F,                -- offset 83: 0x7FFF filler
   0xFF, 0x7F,                -- offset 85: 0x7FFF filler
   0xFF, 0x7F,                -- offset 87: 0x7FFF filler
   0xFF, 0x7F,                -- offset 89: 0x7FFF filler
   0xFF, 0x7F,                -- offset 91: 0x7FFF filler
   0xFF, 0x7F,                -- offset 93: 0x7FFF filler
   10,                        -- offset 95: '\n'
   13,                        -- offset 96: '\r'
   0, 0]                      -- offset 97: CRC field

/-- A record value with no readings (used only to instantiate
universally-quantified record variables at a concrete input). -/
def blankRecord : Record :=
  { crc_match := false, record_type := 2, barometric_trend := none,
    barometric_pressure := none, temperature_inside := none,
    humidity_inside := none, temperature_outside := none, wind_speed := none,
    wind_direction_degrees := none, wind_speed_10_minute_average := none,
    wind_speed_2_minute_average := none, wind_speed_10_minute_gust := none,
    wind_speed_10_minute_gust_direction_degrees := none, dew_point := none,
    humidity_outside := none, heat_index := none, wind_chill := none,
    thsw_index := none, rain_rate_clicks := none, uv_index := none,
    solar_radiation := none, rain_clicks_this_storm := none,
    rain_clicks_today := none, rain_clicks_15_minutes := none,
    rain_clicks_1_hour := none, evapotranspiration := none,
    rain_clicks_24_hours := none, minute_in_hour := none,
    wind_direction := none, wind_speed_10_minute_gust_direction := none,
    rain_rate := none, rain_amount_this_storm := none, rain_amount_today := none,
    rain_amount_15_minutes := none, rain_amount_1_hour := none,
    rain_amount_24_hours := none }

/-- An unpacked LOOP2 tuple with the documented constants in the reserved
entries and every `TENTHS`/`THOUSANDTHS`-converted field at its sentinel,
so that the extraction loop never calls the broken conversion lambdas.
Both wind-direction codes and all rain click counts are 0. -/
def uSentinels : Unpacked :=
  { tag := [76, 79, 79], barometric_trend := 20, record_type := 1,
    unused3 := 0x7FFF, barometric_pressure := 0, temperature_inside := 32767,
    humidity_inside := 50, temperature_outside := 32767, wind_speed := 5,
    unused9 := 0xFF, wind_direction_degrees := 0,
    wind_speed_10_minute_average := 0, wind_speed_2_minute_average := 0,
    wind_speed_10_minute_gust := 0,
    wind_speed_10_minute_gust_direction_degrees := 0, unused15 := 0x7FFF,
    unused16 := 0x7FFF, dew_point := 60, unused18 := 0xFF,
    humidity_outside := 55, unused20 := 0xFF, heat_index := 80,
    wind_chill := 70, thsw_index := 75, rain_rate_clicks := 0, uv_index := 255,
    solar_radiation := 400, rain_clicks_this_storm := 0, rain_clicks_today := 0,
    rain_clicks_15_minutes := 0, rain_clicks_1_hour := 0,
    evapotranspiration := 0, rain_clicks_24_hours := 0, unused33 := 0xFF,
    minute_in_hour := 30, unused35 := 0x7FFF, unused36 := 0x7FFF,
    unused37 := 0x7FFF, unused38 := 0x7FFF, unused39 := 0x7FFF,
    unused40 := 0x7FFF, lf := [10], cr := [13], crc := 0 }

/-- `uSentinels` with the outside-temperature entry holding raw 725. -/
def uTempOut725 : Unpacked := { uSentinels with temperature_outside := 725 }

/-- `uSentinels` with both wind-direction entries holding 90 degrees. -/
def uWind90 : Unpacked :=
  { uSentinels with wind_direction_degrees := 90,
                    wind_speed_10_minute_gust_direction_degrees := 90 }

/-- `uSentinels` with 250 rain clicks today. -/
def uRain250 : Unpacked := { uSentinels with rain_clicks_today := 250 }

/-! ### Claim theorems for the decoder -/

/-- C3 (counterexample): a 100-byte all-zero buffer does not fail with the
length error (`struct.error`, the only length-related failure the code can
produce): `struct.unpack_from` accepts any buffer of at least 99 bytes, so
the decode proceeds past the length stage and fails later, at the
fixed-field assertions. -/
theorem loop2_100_bytes_no_length_error :
    get_loop_2_arguments (List.replicate 100 0) = .error .assertionError ∧
      PyErr.assertionError ≠ PyErr.structError :=
  ⟨rfl, by decide⟩

/-- C3 (amended): a buffer shorter than 99 bytes fails with the
`struct.error` length failure before any field extraction, and no buffer of
any length other than 99 bytes can yield a record (longer buffers are
unpacked from their first 99 bytes and then fail the fixed-field
assertions, like every buffer does). -/
theorem loop2_short_buffer_fails :
    (∀ data : List Nat, data.length < 99 →
        get_loop_2_arguments data = .error .structError) ∧
    (∀ (data : List Nat) (r : Record), data.length ≠ 99 →
        get_loop_2_arguments data ≠ .ok r) := by
  constructor
  · intro data h
    unfold get_loop_2_arguments unpack_from
    rw [if_pos h]
  · exact fun data r _ => loop2_no_success data r

/-- Witness for `loop2_short_buffer_fails` at concrete inputs: the empty
buffer and a 100-byte buffer. -/
theorem loop2_short_buffer_fails_witness :
    get_loop_2_arguments [] = .error .structError ∧
      get_loop_2_arguments (List.replicate 100 0) ≠ .ok blankRecord :=
  ⟨loop2_short_buffer_fails.1 [] (by decide),
   loop2_short_buffer_fails.2 (List.replicate 100 0) blankRecord (by decide)⟩

/-- C4: the claim says a 99-byte buffer fails with an offset/expected/actual
carrying error only when some fixed field mismatches its constant.  On the
code, `validBuf` — which holds every documented constant — is rejected with
a bare `AssertionError`: the verification map compares the `bytes` tag and
terminator entries against `str` constants, which is always `False` on
Python 3, and `assert` carries no payload at all. -/
theorem loop2_all_constants_buffer_rejected :
    validBuf.length = 99 ∧
      get_loop_2_arguments validBuf = .error .assertionError :=
  ⟨rfl, rfl⟩

/-- C5: the claim says buffers that pass structural and fixed-field
validation decode to a record carrying the checksum-valid flag.  No buffer
passes the fixed-field validation (the bytes-vs-str assertions fail for
every input), so the decoder never returns a record and no checksum flag is
ever attached. -/
theorem loop2_decode_never_ok :
    ∀ data : List Nat, ∃ e : PyErr, get_loop_2_arguments data = .error e := by
  intro data
  unfold get_loop_2_arguments
  cases hu : unpack_from data with
  | error e => exact ⟨e, rfl⟩
  | ok u => exact ⟨.assertionError, by simp [verifyFixed_fails]⟩

/-- C6: with the outside-temperature entry at its sentinel 32767 (and the
other scaled entries at theirs) the extraction yields an absent
`temperature_outside`, as claimed; but with the entry at raw 725 the
extraction does not produce 72.5 — it raises
`NameError: name '_TENTHS' is not defined`, because `DavisConversions.TENTHS`
is a class-body lambda whose `_TENTHS` is not in scope at call time in
Python 3. -/
theorem loop2_temperature_outside_broken :
    (extractArguments false uSentinels).map (fun a => a.temperature_outside) =
        .ok none ∧
      extractArguments false uTempOut725 = .error (.nameError "_TENTHS") :=
  ⟨rfl, rfl⟩

/-- C7: on any unpacked tuple the extraction loop accepts, the
post-processing converts a raw wind-direction code of 0 (for either the
current or the 10-minute-gust field) to an absent direction, and a raw code
in 1..360 to a present direction of that many degrees. -/
theorem loop2_wind_direction_rule :
    ∀ (crcm : Bool) (u : Unpacked) (a : Args),
      extractArguments crcm u = .ok a →
      ((u.wind_direction_degrees = 0 → (post_process a).wind_direction = none) ∧
       (1 ≤ u.wind_direction_degrees → u.wind_direction_degrees ≤ 360 →
         (post_process a).wind_direction =
           some (WindDirection_from_degrees u.wind_direction_degrees)) ∧
       (u.wind_speed_10_minute_gust_direction_degrees = 0 →
         (post_process a).wind_speed_10_minute_gust_direction = none) ∧
       (1 ≤ u.wind_speed_10_minute_gust_direction_degrees →
         u.wind_speed_10_minute_gust_direction_degrees ≤ 360 →
         (post_process a).wind_speed_10_minute_gust_direction =
           some (WindDirection_from_degrees
             u.wind_speed_10_minute_gust_direction_degrees))) := by
  intro crcm u a h
  rw [extract_ok_iff] at h
  obtain ⟨-, -, -, -, -, -, -, -, rfl⟩ := h
  refine ⟨?_, ?_, ?_, ?_⟩
  · intro h0
    simp [post_process, argsOf, windDirOf, h0]
  · intro h1 h2
    have hne : u.wind_direction_degrees ≠ 0 := by omega
    simp [post_process, argsOf, windDirOf, hne, WindDirection_from_degrees]
  · intro h0
    simp [post_process, argsOf, windDirOf, h0]
  · intro h1 h2
    have hne : u.wind_speed_10_minute_gust_direction_degrees ≠ 0 := by omega
    simp [post_process, argsOf, windDirOf, hne, WindDirection_from_degrees]

/-- Witness for `loop2_wind_direction_rule`: both direction codes 90 decode
to a present 90-degree direction; code 0 decodes to an absent direction. -/
theorem loop2_wind_direction_rule_witness :
    (post_process (argsOf false uWind90)).wind_direction = some 90 ∧
      (post_process (argsOf false uSentinels)).wind_direction = none := by
  constructor
  · exact (loop2_wind_direction_rule false uWind90 (argsOf false uWind90)
      rfl).2.1 (by decide) (by decide)
  · exact (loop2_wind_direction_rule false uSentinels (argsOf false uSentinels)
      rfl).1 rfl

/-- C8 (counterexample): on an accepted tuple whose rain click counts are
all 0 (`uSentinels`), the decoded rain amount for today is absent (`None`),
not a present zero as the claim states. -/
theorem loop2_rain_zero_clicks_decodes_absent :
    (extractArguments false uSentinels).map
        (fun a => (post_process a).rain_amount_today) = .ok none ∧
      (none : Option ℚ) ≠ some 0 :=
  ⟨rfl, by decide⟩

/-- C8 (amended): for every accepted tuple, each rain-related click count
of 0 yields an absent rain amount (the `if arguments[k1]:` truthiness test
treats 0 like `None`), and a nonzero count yields a present amount of
clicks × 0.01 inches. -/
theorem loop2_rain_amount_rule :
    ∀ (crcm : Bool) (u : Unpacked) (a : Args),
      extractArguments crcm u = .ok a →
      ((u.rain_rate_clicks = 0 → (post_process a).rain_rate = none) ∧
       (u.rain_rate_clicks ≠ 0 → (post_process a).rain_rate =
         some (clicks_to_inches u.rain_rate_clicks)) ∧
       (u.rain_clicks_this_storm = 0 →
         (post_process a).rain_amount_this_storm = none) ∧
       (u.rain_clicks_this_storm ≠ 0 → (post_process a).rain_amount_this_storm =
         some (clicks_to_inches u.rain_clicks_this_storm)) ∧
       (u.rain_clicks_today = 0 → (post_process a).rain_amount_today = none) ∧
       (u.rain_clicks_today ≠ 0 → (post_process a).rain_amount_today =
         some (clicks_to_inches u.rain_clicks_today)) ∧
       (u.rain_clicks_15_minutes = 0 →
         (post_process a).rain_amount_15_minutes = none) ∧
       (u.rain_clicks_15_minutes ≠ 0 → (post_process a).rain_amount_15_minutes =
         some (clicks_to_inches u.rain_clicks_15_minutes)) ∧
       (u.rain_clicks_1_hour = 0 → (post_process a).rain_amount_1_hour = none) ∧
       (u.rain_clicks_1_hour ≠ 0 → (post_process a).rain_amount_1_hour =
         some (clicks_to_inches u.rain_clicks_1_hour)) ∧
       (u.rain_clicks_24_hours = 0 →
         (post_process a).rain_amount_24_hours = none) ∧
       (u.rain_clicks_24_hours ≠ 0 → (post_process a).rain_amount_24_hours =
         some (clicks_to_inches u.rain_clicks_24_hours))) := by
  intro crcm u a h
  rw [extract_ok_iff] at h
  obtain ⟨-, -, -, -, -, -, -, -, rfl⟩ := h
  refine ⟨?_, ?_, ?_, ?_, ?_, ?_, ?_, ?_, ?_, ?_, ?_, ?_⟩ <;> intro h0 <;>
    simp [post_process, argsOf, rainAmountOf, h0]

/-- Witness for `loop2_rain_amount_rule`: 250 clicks today decode to a
present amount of 250 × 0.01 inches; a zero rain-rate count decodes to an
absent rain rate. -/
theorem loop2_rain_amount_rule_witness :
    (post_process (argsOf false uRain250)).rain_amount_today =
        some (clicks_to_inches 250) ∧
      (post_process (argsOf false uRain250)).rain_rate = none := by
  have h := loop2_rain_amount_rule false uRain250 (argsOf false uRain250) rfl
  exact ⟨h.2.2.2.2.2.1 (by decide), h.1 rfl⟩

/-! ## Packed date and time codecs (`DavisDate`, `DavisTime`) -/

/-- A `datetime.date` value. -/
structure PyDate where
  year : Int
  month : Int
  day : Int
  deriving DecidableEq, Repr

/-- Gregorian leap-year rule, as `datetime` uses for day validation. -/
def isLeap (y : Int) : Bool := y % 4 == 0 && (y % 100 != 0 || y % 400 == 0)

/-- Days in a month, as `datetime` uses for day validation. -/
def daysInMonth (y m : Int) : Int :=
  if m = 2 then (if isLeap y then 29 else 28)
  else if m = 4 ∨ m = 6 ∨ m = 9 ∨ m = 11 then 30
  else 31

/-- The `datetime.date(year, month, day)` constructor: `ValueError` unless
`MINYEAR (1) <= year <= MAXYEAR (9999)`, `1 <= month <= 12` and
`1 <= day <= days in that month`. -/
def date_new (y m d : Int) : Except PyErr PyDate :=
  if 1 ≤ y ∧ y ≤ 9999 ∧ 1 ≤ m ∧ m ≤ 12 ∧ 1 ≤ d ∧ d ≤ daysInMonth y m
  then .ok ⟨y, m, d⟩ else .error .valueError

/-- `DavisDate.from_davis(value)` as written:
`year = value >> 9`; `month = value & 0b0000000111100000 >> 5` — Python's
`>>` binds tighter than `&`, so this is `value & (0x1E0 >> 5)`, i.e.
`value & 0xF`, not bits 5..8; `day = value & 31`;
then `datetime.date(year+2000, month, day)`. -/
def DavisDate_from_davis (value : Nat) : Except PyErr PyDate :=
  let year := value >>> 9
  let month := value &&& (0b0000000111100000 >>> 5)
  let day := value &&& 31
  date_new ((year : Int) + 2000) (month : Int) (day : Int)

/-- `DavisDate.to_davis(d)` as written:
`np.uint16((d.year-2000) << 9 + d.month << 5 + d.day)` — Python's `+` binds
tighter than `<<`, so this is
`((d.year-2000) << (9 + d.month)) << (5 + d.day)`, wrapped to 16 bits by
the `np.uint16` cast (made explicit as `% 65536`; the dates used here keep
the intermediate shift small enough that the cast is a plain wrap). -/
def DavisDate_to_davis (d : PyDate) : Nat :=
  ((((d.year - 2000).toNat) <<< ((9 + d.month).toNat)) <<< ((5 + d.day).toNat)) % 65536

/-- C9: the packed-date round trip is not the identity on the claimed
range.  For 2000-01-01 the encoder computes `(0 << 10) << 6 = 0` (because
of the `<<` / `+` precedence slip), and decoding 0 calls
`datetime.date(2000, 0, 0)`, which raises `ValueError`.  Decoding is wrong
even on a correctly packed value: 579 = (1 << 9) + (2 << 5) + 3 encodes
2001-02-03, but `from_davis` masks the month as `value & 0xF` (precedence
slip), returning 2001-03-03. -/
theorem davis_date_roundtrip_fails :
    DavisDate_to_davis ⟨2000, 1, 1⟩ = 0 ∧
      DavisDate_from_davis (DavisDate_to_davis ⟨2000, 1, 1⟩) =
        .error .valueError ∧
      DavisDate_from_davis 579 = .ok ⟨2001, 3, 3⟩ :=
  ⟨rfl, rfl, rfl⟩

/-- A `datetime.time` value (hour and minute; the protocol carries no
seconds). -/
structure PyTime where
  hour : Int
  minute : Int
  deriving DecidableEq, Repr

/-- The `datetime.time(hour, minute)` constructor: `ValueError` unless
`0 <= hour <= 23` and `0 <= minute <= 59`. -/
def time_new (h m : Int) : Except PyErr PyTime :=
  if 0 ≤ h ∧ h ≤ 23 ∧ 0 ≤ m ∧ m ≤ 59 then .ok ⟨h, m⟩ else .error .valueError

/-- `DavisTime.from_davis(value)`: `m = value % 100; h = value // 100;
datetime.time(h, m)`. -/
def DavisTime_from_davis (value : Nat) : Except PyErr PyTime :=
  time_new ((value / 100 : Nat) : Int) ((value % 100 : Nat) : Int)

/-- `DavisTime.to_davis(t)`: `t.hour * 100 + t.minute`. -/
def DavisTime_to_davis (t : PyTime) : Int := t.hour * 100 + t.minute

/-- C10: for every 16-bit value, `DavisTime.from_davis` raises `ValueError`
when `value % 100` is not a valid minute or `value // 100` is not a valid
hour, and otherwise returns the time with hour `value // 100` and minute
`value % 100`. -/
theorem davis_time_from_davis_correct :
    ∀ value : Nat, value < 65536 →
      ((59 < value % 100 ∨ 23 < value / 100) →
        DavisTime_from_davis value = .error .valueError) ∧
      (value / 100 ≤ 23 → value % 100 ≤ 59 →
        DavisTime_from_davis value =
          .ok ⟨((value / 100 : Nat) : Int), ((value % 100 : Nat) : Int)⟩) := by
  intro value _
  constructor
  · intro h
    unfold DavisTime_from_davis time_new
    rw [if_neg (by omega)]
  · intro h1 h2
    unfold DavisTime_from_davis time_new
    rw [if_pos (by omega)]

/-- Witness for `davis_time_from_davis_correct`: 1234 decodes to 12:34 and
2500 (hour 25) raises `ValueError`. -/
theorem davis_time_from_davis_correct_witness :
    DavisTime_from_davis 1234 = .ok ⟨12, 34⟩ ∧
      DavisTime_from_davis 2500 = .error .valueError := by
  constructor
  · exact (davis_time_from_davis_correct 1234 (by decide)).2 (by decide) (by decide)
  · exact (davis_time_from_davis_correct 2500 (by decide)).1 (Or.inr (by decide))

end Pydavis
